import Mathlib

/-!
# Verification of the ERP income-statement pipeline

A shallow embedding of the schema-reconciliation and income-statement
synthesis pipeline of `backend/services/erp_data_processor.py` and
`backend/services/ai_smart_parser.py`, together with theorems settling
the frozen specification claims.

Modelling conventions:
* a pandas `DataFrame` is a list of column names plus a list of rows,
  each row an association list from column name to a cell value;
* numeric cells are rationals (`ℚ`), exact arithmetic standing in for
  Python floats; string cells are `String`;
* summing a column skips non-numeric / missing cells (pandas skips NaN);
* fallible Python code (a raised `KeyError`) is `Except String`;
* Python `str.strip` / `str.lower` / `str.replace(' ','')` are modelled
  character-wise on the string's character list.
-/

set_option autoImplicit false

namespace ERP

/-- A cell of an uploaded table: a number or a free-form string. -/
inductive Value where
  | num (q : ℚ)
  | str (s : String)
deriving DecidableEq, Repr

/-- One row of a table: original column name ↦ cell value. -/
abbrev Row := List (String × Value)

/-- A pandas `DataFrame`: its column names and its rows.
`cols` lists every column (possibly with duplicates, as pandas allows). -/
structure DataFrame where
  cols : List String
  rows : List Row
deriving DecidableEq, Repr

/-- Cell lookup: the value a row holds for a column, if any. -/
def cellVal (r : Row) (c : String) : Option Value :=
  (r.find? (fun p => p.1 == c)).map (fun p => p.2)

/-- Numeric reading of an optional cell: non-numeric and missing cells
count as 0, mirroring pandas `sum` skipping NaN entries. -/
def numOf : Option Value → ℚ
  | some (Value.num q) => q
  | _ => 0

/-- `df[col].sum()`: sum of the numeric values of a column. -/
def colSum (df : DataFrame) (c : String) : ℚ :=
  (df.rows.map (fun r => numOf (cellVal r c))).sum

/-- `df[df[col] == s]`: keep the rows whose cell at `col` is the string `s`. -/
def filterRows (df : DataFrame) (c : String) (s : String) : DataFrame :=
  ⟨df.cols, df.rows.filter (fun r => cellVal r c == some (Value.str s))⟩

/-! ## Python string normalisation helpers -/

/-- Python `str.strip()`: drop leading and trailing whitespace. -/
def pyStrip (s : String) : String :=
  String.mk (((s.data.dropWhile Char.isWhitespace).reverse.dropWhile
    Char.isWhitespace).reverse)

/-- Python `str.lower()` on the ASCII letters occurring in the source's
column names (Korean characters are caseless). -/
def pyLower (s : String) : String :=
  String.mk (s.data.map Char.toLower)

/-- Python `.replace(' ', '').replace('_', '')`: remove every space and
underscore. -/
def stripSpaceUnderscore (s : String) : String :=
  String.mk (s.data.filter (fun c => !(c == ' ' || c == '_')))

/-- The loader's column-name normalisation
(`str(col).strip().lower().replace(' ', '').replace('_', '')`). -/
def pyNormalize (s : String) : String :=
  stripSpaceUnderscore (pyLower (pyStrip s))

/-! ## Dataset types and the session store (`ERPDataProcessor.data`) -/

/-- The six dataset slots of `ERPDataProcessor.data`. -/
inductive DatasetType where
  | sales
  | purchases
  | payroll
  | mfg_expenses
  | inventory
  | sg_expenses
deriving DecidableEq, Repr

/-- The processor's per-session dataset store (`self.data`). -/
structure Store where
  sales : Option DataFrame
  purchases : Option DataFrame
  payroll : Option DataFrame
  mfg_expenses : Option DataFrame
  inventory : Option DataFrame
  sg_expenses : Option DataFrame
deriving DecidableEq, Repr

/-- The store with every slot empty (`ERPDataProcessor.__init__`). -/
def emptyStore : Store := ⟨none, none, none, none, none, none⟩

/-- Read one slot of the store. -/
def Store.get (s : Store) : DatasetType → Option DataFrame
  | DatasetType.sales => s.sales
  | DatasetType.purchases => s.purchases
  | DatasetType.payroll => s.payroll
  | DatasetType.mfg_expenses => s.mfg_expenses
  | DatasetType.inventory => s.inventory
  | DatasetType.sg_expenses => s.sg_expenses

/-- `self.data[data_type] = df`: replace one slot of the store. -/
def Store.set (s : Store) : DatasetType → DataFrame → Store
  | DatasetType.sales, df => { s with sales := some df }
  | DatasetType.purchases, df => { s with purchases := some df }
  | DatasetType.payroll, df => { s with payroll := some df }
  | DatasetType.mfg_expenses, df => { s with mfg_expenses := some df }
  | DatasetType.inventory, df => { s with inventory := some df }
  | DatasetType.sg_expenses, df => { s with sg_expenses := some df }

/-! ## `load_excel` and its column resolution -/

/-- `_get_required_columns`: required canonical columns per dataset type. -/
def requiredColumns : DatasetType → List String
  | DatasetType.sales => ["전표일자", "거래처명", "제품명", "수량", "원화환산액"]
  | DatasetType.purchases => ["전표일자", "공급업체명", "품목명", "수량", "공급가액"]
  | DatasetType.payroll => ["부서", "기본급", "지급총액", "원가구분"]
  | DatasetType.mfg_expenses => ["전표일자", "계정과목", "차변금액"]
  | DatasetType.inventory => ["품목명", "품목분류", "기초금액", "기말금액"]
  | DatasetType.sg_expenses => ["전표일자", "계정과목", "차변금액"]

/-- The synonym dictionary of `_find_alternative_column`
(required column ↦ accepted alternative names). -/
def synonyms : String → List String
  | "전표일자" => ["일자", "날짜", "거래일", "매출일자", "판매일", "Date", "BUDAT", "date", "작성일"]
  | "거래처명" => ["고객명", "거래처", "바이어", "Customer", "Customer Name", "KUNNR", "customer", "매출처", "거래선명"]
  | "제품명" => ["품목명", "상품명", "품명", "Product", "Product Name", "Material", "MATNR", "제품"]
  | "수량" => ["판매수량", "Quantity", "QTY", "qty", "매출수량", "FKIMG", "판매량", "입고QTY", "입고수량", "매입수량"]
  | "원화환산액" => ["매출금액", "금액", "원화금액", "Amount", "NETWR", "매출액", "원화매출", "판매금액", "DMBTR", "Local Amount"]
  | "공급업체명" => ["거래처명", "공급처", "업체명", "Vendor", "Supplier", "LIFNR", "매입처"]
  | "품목명" => ["제품명", "상품명", "품명", "Material", "Product", "원자재명"]
  | "공급가액" => ["매입금액", "금액", "Amount", "NETWR", "공급가", "구매금액", "매입가액", "Purchase Amount"]
  | "부서" => ["소속부서", "부서명", "Department", "Dept", "소속"]
  | "기본급" => ["급여", "월급", "Base Salary", "기본월급"]
  | "지급총액" => ["총지급액", "급여총액", "Total Pay", "총급여"]
  | "원가구분" => ["노무비구분", "급여구분", "구분"]
  | "계정과목" => ["계정", "비용항목", "Account", "경비항목"]
  | "차변금액" => ["금액", "지출금액", "Debit", "발생금액", "비용금액"]
  | "품목분류" => ["분류", "재고구분", "Category", "품목구분"]
  | "기초금액" => ["기초재고금액", "기초재고", "Opening", "월초금액"]
  | "기말금액" => ["기말재고금액", "기말재고", "Closing", "월말금액"]
  | "제품구분" => ["제품분류", "품목구분", "제품군", "제품카테고리", "Product Category", "Category", "용도구분", "용도"]
  | "수출/내수" => ["수출내수", "내수수출", "수출구분", "Export/Domestic", "구분"]
  | _ => []

/-- `_find_alternative_column`: first available column whose stripped name
equals a synonym of the required column, exactly or case-insensitively. -/
def findAlternativeColumn (requiredCol : String) (availableCols : List String) :
    Option String :=
  let alts := synonyms requiredCol
  availableCols.find? (fun col =>
    let colStr := pyStrip col
    alts.any (fun alt => colStr == alt || pyLower colStr == pyLower alt))

/-- `df.rename(columns={old: new})`: rename every column named `old`. -/
def renameCol (df : DataFrame) (old new : String) : DataFrame :=
  ⟨df.cols.map (fun c => if c = old then new else c),
   df.rows.map (fun r => r.map (fun p => (if p.1 = old then new else p.1, p.2)))⟩

/-- The smart-parsing rename of `load_excel` (lines 72–81): each column
whose stripped name has an entry in `column_mapping` is renamed to the
mapped standard name. -/
def applyColumnMapping (df : DataFrame) (mapping : List (String × String)) :
    DataFrame :=
  let tr : String → String := fun c =>
    match mapping.find? (fun p => p.1 == pyStrip c) with
    | some p => p.2
    | none => c
  ⟨df.cols.map tr, df.rows.map (fun r => r.map (fun p => (tr p.1, p.2)))⟩

/-- The required-column loop of `load_excel` (lines 87–111): for each
required column in order, accept an exact name match, else rename the
first column matching after normalisation, else rename the first synonym
hit, else record the column as missing. Returns the (partially renamed)
table and the missing required columns, in order. -/
def resolveRequired : DataFrame → List String → DataFrame × List String
  | df, [] => (df, [])
  | df, req :: rest =>
    if req ∈ df.cols then resolveRequired df rest
    else
      match df.cols.find? (fun col => pyNormalize col == pyNormalize req) with
      | some col => resolveRequired (renameCol df col req) rest
      | none =>
        match findAlternativeColumn req df.cols with
        | some col => resolveRequired (renameCol df col req) rest
        | none =>
          let r := resolveRequired df rest
          (r.1, req :: r.2)

/-- Result of one `load_excel` call, mirroring the dictionaries the
function returns (`success`, `error`, `found_columns`; the `missing`
field holds the list joined into the error message). -/
structure LoadResult where
  success : Bool
  error : Option String
  found_columns : Option (List String)
  missing : List String
deriving DecidableEq, Repr

/-- `load_excel` (lines 55–141) as a state transition on the session
store: validate the uploaded table, and store it in the slot for
`data_type` only when validation succeeds.  The preview assembly
(lines 122–137) only reformats the accepted table for display and is
not modelled. -/
def loadExcel (store : Store) (dataType : DatasetType) (df : DataFrame)
    (columnMapping : List (String × String)) : LoadResult × Store :=
  if df.rows.isEmpty then
    (⟨false, some "빈 파일입니다.", none, []⟩, store)
  else
    let df1 := applyColumnMapping df columnMapping
    let rr := resolveRequired df1 (requiredColumns dataType)
    if rr.2.isEmpty then
      (⟨true, none, none, []⟩, store.set dataType rr.1)
    else
      (⟨false, some ("필수 컬럼 누락: " ++ String.intercalate ", " rr.2),
        some rr.1.cols, rr.2⟩, store)

/-! ## Python `round` (banker's rounding) -/

/-- Round-half-to-even to an integer, as Python's builtin `round`. -/
def roundHalfEven (x : ℚ) : ℤ :=
  let n := ⌊x⌋
  let f := x - (n : ℚ)
  if f < 1/2 then n
  else if 1/2 < f then n + 1
  else if n % 2 = 0 then n else n + 1

/-- Python `round(x, 1)`. -/
def pyRound1 (x : ℚ) : ℚ := (roundHalfEven (x * 10) : ℚ) / 10

/-- Python `round(x, 2)`. -/
def pyRound2 (x : ℚ) : ℚ := (roundHalfEven (x * 100) : ℚ) / 100

/-! ## The per-dataset processing methods

Each `process_*` method returns an error dictionary when its slot is
empty (handled by the caller `generate_income_statement`), and raises a
`KeyError` when a column it reads is absent from the stored table; the
raise is modelled by `Except.error`. Per-group breakdown dictionaries
(`by_customer`, `by_account`, `by_type`, `daily_trend`, …) are built for
display only and nothing in the statement synthesis reads them; they are
not carried in the result structures, but the columns pandas would touch
while building them are still required. -/

/-- Result of `process_sales`. -/
structure SalesResult where
  total : ℚ
  exportTotal : ℚ
  domestic : ℚ
  transaction_count : ℕ
deriving DecidableEq, Repr

/-- The accepted names of the export/domestic marker column
(`process_sales`, lines 213–217). -/
def exportDomesticCols : List String :=
  ["수출/내수", "수출내수", "내수수출", "수출구분", "Export/Domestic", "구분"]

/-- `process_sales` on a stored table (lines 198–268): total revenue,
export/domestic split when a marker column exists (otherwise everything
is domestic).  Reads `원화환산액` (sums) and `거래처명` (top-customer
groupby), raising when either is absent. -/
def processSales (df : DataFrame) : Except String SalesResult :=
  if "원화환산액" ∈ df.cols then
    if "거래처명" ∈ df.cols then
      let total := colSum df "원화환산액"
      let edcol := df.cols.find? (fun c => exportDomesticCols.contains (pyStrip c))
      let exdo : ℚ × ℚ :=
        match edcol with
        | some c => (colSum (filterRows df c "수출") "원화환산액",
                     colSum (filterRows df c "내수") "원화환산액")
        | none => (0, total)
      Except.ok ⟨total, exdo.1, exdo.2, df.rows.length⟩
    else Except.error "KeyError: 거래처명"
  else Except.error "KeyError: 원화환산액"

/-- Result of `process_purchases`. -/
structure PurchasesResult where
  total : ℚ
  transaction_count : ℕ
deriving DecidableEq, Repr

/-- `process_purchases` (lines 270–292): total purchase amount.  Reads
`공급가액` and `공급업체명`. -/
def processPurchases (df : DataFrame) : Except String PurchasesResult :=
  if "공급가액" ∈ df.cols then
    if "공급업체명" ∈ df.cols then
      Except.ok ⟨colSum df "공급가액", df.rows.length⟩
    else Except.error "KeyError: 공급업체명"
  else Except.error "KeyError: 공급가액"

/-- Result of `process_payroll`. -/
structure PayrollResult where
  total : ℚ
  direct_labor : ℚ
  indirect_labor : ℚ
  employee_count : ℕ
deriving DecidableEq, Repr

/-- `process_payroll` (lines 294–316): total pay, and the direct/indirect
split decided by the rows whose `원가구분` cell equals the exact string
`직접노무비` resp. `간접노무비`.  Reads `지급총액`, `원가구분`, `부서`. -/
def processPayroll (df : DataFrame) : Except String PayrollResult :=
  if "지급총액" ∈ df.cols then
    if "원가구분" ∈ df.cols then
      if "부서" ∈ df.cols then
        Except.ok ⟨colSum df "지급총액",
          colSum (filterRows df "원가구분" "직접노무비") "지급총액",
          colSum (filterRows df "원가구분" "간접노무비") "지급총액",
          df.rows.length⟩
      else Except.error "KeyError: 부서"
    else Except.error "KeyError: 원가구분"
  else Except.error "KeyError: 지급총액"

/-- Result of `process_manufacturing_expenses` / `process_selling_admin_expenses`. -/
structure ExpenseResult where
  total : ℚ
  transaction_count : ℕ
deriving DecidableEq, Repr

/-- `process_manufacturing_expenses` (lines 318–334): total debit amount.
Reads `차변금액` and `계정과목`. -/
def processManufacturingExpenses (df : DataFrame) : Except String ExpenseResult :=
  if "차변금액" ∈ df.cols then
    if "계정과목" ∈ df.cols then
      Except.ok ⟨colSum df "차변금액", df.rows.length⟩
    else Except.error "KeyError: 계정과목"
  else Except.error "KeyError: 차변금액"

/-- `process_selling_admin_expenses` (lines 385–401): same shape as the
manufacturing-expense processing, on the SG&A slot. -/
def processSellingAdminExpenses (df : DataFrame) : Except String ExpenseResult :=
  if "차변금액" ∈ df.cols then
    if "계정과목" ∈ df.cols then
      Except.ok ⟨colSum df "차변금액", df.rows.length⟩
    else Except.error "KeyError: 계정과목"
  else Except.error "KeyError: 차변금액"

/-- One inventory section (beginning / ending / change). -/
structure InvSection where
  beginning : ℚ
  ending : ℚ
  change : ℚ
deriving DecidableEq, Repr

/-- Result of `process_inventory`. -/
structure InventoryResult where
  raw_material : InvSection
  products : InvSection
  work_in_progress : InvSection
deriving DecidableEq, Repr

/-- `process_inventory` (lines 336–383): per-category roll-forward.  The
`by_type` aggregation `df.groupby('품목분류').agg({'기초금액','기말금액',
'입고금액','출고금액'})` references all four amount columns
unconditionally, so pandas raises when any of them (or the groupby key)
is absent — even though `load_excel` only requires `품목명, 품목분류,
기초금액, 기말금액` for the inventory type. -/
def processInventory (df : DataFrame) : Except String InventoryResult :=
  if "품목분류" ∈ df.cols then
    if "기초금액" ∈ df.cols then
      if "기말금액" ∈ df.cols then
        if "입고금액" ∈ df.cols then
          if "출고금액" ∈ df.cols then
            let sec : String → InvSection := fun category =>
              let sub := filterRows df "품목분류" category
              let b := colSum sub "기초금액"
              let e := colSum sub "기말금액"
              ⟨b, e, e - b⟩
            Except.ok ⟨sec "원재료", sec "제품", sec "재공품"⟩
          else Except.error "KeyError: 출고금액"
        else Except.error "KeyError: 입고금액"
      else Except.error "KeyError: 기말금액"
    else Except.error "KeyError: 기초금액"
  else Except.error "KeyError: 품목분류"

/-! ## `generate_income_statement` -/

/-- The numeric inputs `generate_income_statement` gathers from the six
processing steps (lines 429–480) before the statement arithmetic. -/
structure StmtInputs where
  total_revenue : ℚ
  exportTotal : ℚ
  domestic : ℚ
  raw_material_cost : ℚ
  direct_labor : ℚ
  indirect_labor : ℚ
  manufacturing_overhead : ℚ
  rm_change : ℚ
  wip_change : ℚ
  prod_change : ℚ
  selling_admin_expenses : ℚ
deriving DecidableEq, Repr

/-- The three ratio fields of the statement. -/
structure Ratios where
  cost_ratio : ℚ
  gross_margin : ℚ
  operating_margin : ℚ
deriving DecidableEq, Repr

/-- The `income_statement` dictionary (lines 508–538), with the nested
breakdown dictionaries flattened into `bd_*` fields. -/
structure IncomeStatement where
  revenue_total : ℚ
  revenue_export : ℚ
  revenue_domestic : ℚ
  cogs_total : ℚ
  bd_raw_materials : ℚ
  bd_direct_labor : ℚ
  bd_manufacturing_overhead : ℚ
  bd_inventory_adjustment : ℚ
  gross_profit : ℚ
  sga_total : ℚ
  bd_sg_expenses : ℚ
  bd_indirect_labor : ℚ
  operating_profit : ℚ
  ratios : Ratios
deriving DecidableEq, Repr

/-- The statement arithmetic of `generate_income_statement`
(lines 482–538): absorption-costing derivation plus the revenue-guarded
ratios. -/
def buildStatement (i : StmtInputs) : IncomeStatement :=
  let total_manufacturing_cost :=
    i.raw_material_cost - i.rm_change + i.direct_labor
      + i.manufacturing_overhead - i.wip_change
  let cost_of_goods_sold := total_manufacturing_cost - i.prod_change
  let gross_profit := i.total_revenue - cost_of_goods_sold
  let total_sg_expenses := i.selling_admin_expenses + i.indirect_labor
  let operating_profit := gross_profit - total_sg_expenses
  { revenue_total := i.total_revenue
    revenue_export := i.exportTotal
    revenue_domestic := i.domestic
    cogs_total := cost_of_goods_sold
    bd_raw_materials := i.raw_material_cost - i.rm_change
    bd_direct_labor := i.direct_labor
    bd_manufacturing_overhead := i.manufacturing_overhead
    bd_inventory_adjustment := -(i.wip_change + i.prod_change)
    gross_profit := gross_profit
    sga_total := total_sg_expenses
    bd_sg_expenses := i.selling_admin_expenses
    bd_indirect_labor := i.indirect_labor
    operating_profit := operating_profit
    ratios :=
      ⟨if 0 < i.total_revenue then
          pyRound2 (cost_of_goods_sold / i.total_revenue * 100) else 0,
       if 0 < i.total_revenue then
          pyRound2 (gross_profit / i.total_revenue * 100) else 0,
       if 0 < i.total_revenue then
          pyRound2 (operating_profit / i.total_revenue * 100) else 0⟩ }

/-- Sales step of the gathering phase (lines 429–434): an empty slot
contributes 0 revenue and appends the processing error message to the
`errors` list; a raised `KeyError` propagates. -/
def salesStep (slot : Option DataFrame) (errs : List String) :
    Except String ((ℚ × ℚ × ℚ) × List String) :=
  match slot with
  | none => Except.ok ((0, 0, 0), errs ++ ["매출전표 데이터가 없습니다."])
  | some df =>
      Except.map (fun r => ((r.total, r.exportTotal, r.domestic), errs)) (processSales df)

/-- Purchases step (lines 436–442). -/
def purchasesStep (slot : Option DataFrame) (errs : List String) :
    Except String (ℚ × List String) :=
  match slot with
  | none => Except.ok (0, errs ++ ["매입전표 데이터가 없습니다."])
  | some df => Except.map (fun r => (r.total, errs)) (processPurchases df)

/-- Payroll step (lines 444–452). -/
def payrollStep (slot : Option DataFrame) (errs : List String) :
    Except String ((ℚ × ℚ) × List String) :=
  match slot with
  | none => Except.ok ((0, 0), errs ++ ["급여대장 데이터가 없습니다."])
  | some df =>
      Except.map (fun r => ((r.direct_labor, r.indirect_labor), errs)) (processPayroll df)

/-- Manufacturing-expense step (lines 454–460). -/
def mfgStep (slot : Option DataFrame) (errs : List String) :
    Except String (ℚ × List String) :=
  match slot with
  | none => Except.ok (0, errs ++ ["제조경비 데이터가 없습니다."])
  | some df => Except.map (fun r => (r.total, errs)) (processManufacturingExpenses df)

/-- Inventory step (lines 462–472): an empty slot contributes zero
changes and — unlike the other datasets — appends a fixed message to the
`warnings` list, not to `errors`. -/
def inventoryStep (slot : Option DataFrame) (warns : List String) :
    Except String ((ℚ × ℚ × ℚ) × List String) :=
  match slot with
  | none => Except.ok ((0, 0, 0), warns ++ ["재고 데이터 없음 - 재고 변동 미반영"])
  | some df =>
      Except.map
        (fun r => ((r.raw_material.change, r.work_in_progress.change,
                    r.products.change), warns))
        (processInventory df)

/-- SG&A step (lines 474–480). -/
def sgStep (slot : Option DataFrame) (errs : List String) :
    Except String (ℚ × List String) :=
  match slot with
  | none => Except.ok (0, errs ++ ["판매관리비 데이터가 없습니다."])
  | some df => Except.map (fun r => (r.total, errs)) (processSellingAdminExpenses df)

/-- The gathering phase of `generate_income_statement`: run the six
processing steps in source order (sales, purchases, payroll,
manufacturing expenses, inventory, SG&A), accumulating the error and
warning lists, and return the numeric statement inputs. -/
def gatherInputs (store : Store) (errs0 warns0 : List String) :
    Except String (StmtInputs × List String × List String) :=
  Except.bind (salesStep store.sales errs0) fun sa =>
  Except.bind (purchasesStep store.purchases sa.2) fun pu =>
  Except.bind (payrollStep store.payroll pu.2) fun pay =>
  Except.bind (mfgStep store.mfg_expenses pay.2) fun mf =>
  Except.bind (inventoryStep store.inventory warns0) fun inv =>
  Except.bind (sgStep store.sg_expenses mf.2) fun sg =>
  Except.ok
    (⟨sa.1.1, sa.1.2.1, sa.1.2.2, pu.1, pay.1.1, pay.1.2, mf.1,
      inv.1.1, inv.1.2.1, inv.1.2.2, sg.1⟩, sg.2, inv.2)

/-- The overall result of `generate_income_statement`: the statement plus
the final `errors` and `warnings` lists (the returned dictionary aliases
`self.errors`/`self.warnings`, so it reflects every message appended
during processing).  `data_sources`, `details` and the `sanitize_for_json`
pass only repackage these values for display. -/
structure StatementResult where
  income_statement : IncomeStatement
  errors : List String
  warnings : List String
deriving DecidableEq, Repr

/-- `generate_income_statement` (lines 403–551): gather the six dataset
contributions, then derive the absorption-costing statement.  An
exception raised by a processing step propagates (the method has no
handler). -/
def generateIncomeStatement (store : Store) (errs0 warns0 : List String) :
    Except String StatementResult :=
  Except.map (fun x : StmtInputs × List String × List String =>
      ⟨buildStatement x.1, x.2.1, x.2.2⟩)
    (gatherInputs store errs0 warns0)

/-! ## `AISmartParser` (ai_smart_parser.py)

The parser-side normalisation used by `_rule_based_column_mapping`
(`col.lower().strip()` then `.replace(' ', '').replace('_', '')`). -/

/-- `col.lower().strip()` (parser order: lower first, then strip). -/
def parserLowerStrip (s : String) : String := pyStrip (pyLower s)

/-- `AISmartParser.COLUMN_MAPPINGS`: per dataset type, the canonical
column names and their known variants, in declaration order.  The parser
keys dataset types by plain strings (`'sales' | 'purchases' | 'payroll'`);
any other key yields the empty table (`dict.get(data_type, {})`). -/
def columnMappings : String → List (String × List String)
  | "sales" =>
    [("전표일자", ["전표일자", "일자", "날짜", "Date", "date", "거래일", "거래일자",
                  "Transaction Date", "BUDAT", "전표날짜", "매출일자", "매출일"]),
     ("전표번호", ["전표번호", "번호", "No", "no", "Document No", "BELNR",
                  "문서번호", "매출번호", "Invoice No", "Voucher No"]),
     ("거래처코드", ["거래처코드", "고객코드", "Customer Code", "KUNNR",
                   "Cust Code", "거래선코드", "BP Code"]),
     ("거래처명", ["거래처명", "고객명", "거래처", "Customer", "Customer Name",
                  "NAME1", "거래선명", "BP Name", "매출처", "판매처"]),
     ("제품코드", ["제품코드", "품목코드", "Item Code", "MATNR", "Product Code",
                  "상품코드", "SKU", "Material"]),
     ("제품명", ["제품명", "품목명", "품명", "Item", "Product", "Product Name",
                "MAKTX", "상품명", "Description", "품목"]),
     ("수량", ["수량", "Qty", "Quantity", "MENGE", "판매수량", "Sales Qty",
              "매출수량", "Amount", "개수"]),
     ("단위", ["단위", "Unit", "UOM", "MEINS", "수량단위"]),
     ("단가", ["단가", "Price", "Unit Price", "판매단가", "NETPR"]),
     ("공급가액", ["공급가액", "금액", "Amount", "Net Amount", "NETWR",
                  "매출액", "Sales Amount", "판매금액", "공급가"]),
     ("부가세", ["부가세", "VAT", "Tax", "세금", "MWSBP", "부가가치세"]),
     ("합계금액", ["합계금액", "합계", "Total", "Total Amount", "총액",
                  "총금액", "Grand Total"]),
     ("통화", ["통화", "Currency", "WAERK", "화폐", "Curr"]),
     ("환율", ["환율", "Exchange Rate", "Rate", "KURRF", "FX Rate"]),
     ("원화환산액", ["원화환산액", "원화금액", "KRW Amount", "원화",
                   "환산금액", "Local Amount", "원화매출", "DMBTR", "Local Currency Amount"]),
     ("수출/내수", ["수출/내수", "내수/수출", "Export/Domestic", "구분",
                   "거래구분", "Type", "매출구분"]),
     ("제품구분", ["제품구분", "품목구분", "제품분류", "Category",
                  "Product Type", "분류"])]
  | "purchases" =>
    [("전표일자", ["전표일자", "일자", "날짜", "Date", "매입일자", "입고일자",
                  "PO Date", "Receipt Date", "BUDAT"]),
     ("전표번호", ["전표번호", "매입번호", "PO No", "Receipt No", "BELNR"]),
     ("공급업체코드", ["공급업체코드", "업체코드", "Vendor Code", "LIFNR",
                     "Supplier Code", "거래처코드"]),
     ("공급업체명", ["공급업체명", "업체명", "공급업체", "Vendor", "Vendor Name",
                   "Supplier", "Supplier Name", "NAME1", "거래처명"]),
     ("품목코드", ["품목코드", "자재코드", "Material Code", "MATNR",
                  "Item Code", "원자재코드"]),
     ("품목명", ["품목명", "자재명", "Material", "Material Name", "MAKTX",
                "Item", "Description", "원자재명"]),
     ("품목분류", ["품목분류", "자재분류", "Material Type", "Category",
                  "분류", "Type"]),
     ("수량", ["수량", "Qty", "Quantity", "MENGE", "입고수량",
              "Receipt Qty", "매입수량", "입고QTY", "QTY", "구매수량"]),
     ("단위", ["단위", "Unit", "UOM", "MEINS"]),
     ("단가", ["단가", "Price", "Unit Price", "NETPR", "매입단가"]),
     ("공급가액", ["공급가액", "금액", "Amount", "Net Amount", "NETWR",
                  "매입금액", "Purchase Amount", "매입액", "구매금액", "매입가액"]),
     ("부가세", ["부가세", "VAT", "Tax", "MWSBP"]),
     ("합계금액", ["합계금액", "합계", "Total", "총액"])]
  | "payroll" =>
    [("사번", ["사번", "직원번호", "Employee No", "Emp No", "PERNR", "ID"]),
     ("성명", ["성명", "이름", "Name", "Employee Name", "ENAME", "직원명"]),
     ("부서", ["부서", "부서명", "Department", "Dept", "ORGEH", "소속"]),
     ("직급", ["직급", "직위", "Position", "Title", "PLANS", "직책"]),
     ("기본급", ["기본급", "Base Salary", "Basic Pay", "BETRG", "본봉"]),
     ("수당", ["수당", "Allowance", "제수당", "Benefits"]),
     ("공제액", ["공제액", "Deduction", "공제", "차감액"]),
     ("지급총액", ["지급총액", "실지급액", "Net Pay", "Total Pay",
                  "지급액", "급여총액", "Gross Pay"]),
     ("원가구분", ["원가구분", "원가분류", "Cost Type", "노무비구분",
                  "직접/간접", "Labor Type"])]
  | _ => []

/-- The declared variants of one canonical field for a dataset type. -/
def variationsOf (dataType standardName : String) : List String :=
  match (columnMappings dataType).find? (fun sv => sv.1 == standardName) with
  | some sv => sv.2
  | none => []

/-- `_rule_based_column_mapping` (lines 207–229): each observed column is
mapped to the first canonical field having a variant that matches it
after lower-casing and stripping, either directly or additionally
ignoring spaces and underscores. -/
def ruleBasedColumnMapping (columns : List String) (dataType : String) :
    List (String × String) :=
  let defs := columnMappings dataType
  columns.filterMap (fun col =>
    let colLower := parserLowerStrip col
    let colNoSpace := stripSpaceUnderscore colLower
    (defs.find? (fun sv => sv.2.any (fun v =>
        let vLower := parserLowerStrip v
        colLower == vLower || colNoSpace == stripSpaceUnderscore vLower))).map
      (fun sv => (col, sv.1)))

/-- One entry of `_calculate_mapping_confidence`'s `details` list. -/
structure ConfDetail where
  original : String
  mapped : String
  confidence : ℕ
  method : String
deriving DecidableEq, Repr

/-- The per-entry classification of `_calculate_mapping_confidence`
(lines 476–495): case-sensitive membership in the declared variants
gives 100/`exact_match`; membership after `.lower()` gives
95/`case_insensitive`; anything else is assumed AI-inferred,
75/`ai_inference`. -/
def confDetail (dataType : String) (om : String × String) : ConfDetail :=
  let variations := variationsOf dataType om.2
  if om.1 ∈ variations then ⟨om.1, om.2, 100, "exact_match"⟩
  else if pyLower om.1 ∈ variations.map pyLower then
    ⟨om.1, om.2, 95, "case_insensitive"⟩
  else ⟨om.1, om.2, 75, "ai_inference"⟩

/-- `_calculate_mapping_confidence` (lines 470–502): the details list and
the rounded average confidence. -/
structure MappingConfidence where
  average : ℚ
  details : List ConfDetail
deriving DecidableEq, Repr

/-- `_calculate_mapping_confidence`, assembled over a column mapping
(association list standing for the Python dict's items, in order). -/
def calcMappingConfidence (dataType : String)
    (mapping : List (String × String)) : MappingConfidence :=
  let details := mapping.map (confDetail dataType)
  let avg : ℚ :=
    if details.isEmpty then 0
    else ((details.map (fun d => (d.confidence : ℚ))).sum) / (details.length : ℚ)
  ⟨pyRound1 avg, details⟩

/-! ## `_calculate_quality_score` -/

/-- An anomaly finding, reduced to the only field the quality scorer
reads (`a['severity']`); the source records further display fields
(`type`, `column`, `message`, `rows`). -/
structure Anomaly where
  severity : String
deriving DecidableEq, Repr

/-- The result dictionary of `_calculate_quality_score`; the `details`
message list is display-only and not modelled. -/
structure QualityScore where
  score : ℚ
  grade : String
  grade_text : String
  mapping_rate : ℚ
  high_count : ℕ
  medium_count : ℕ
  low_count : ℕ
deriving DecidableEq, Repr

/-- `_calculate_quality_score` (lines 406–468): start from 100, apply the
mapping-completeness penalty and the per-severity anomaly penalties
(the source guards each subtraction by `count > 0`, which only matters
for its display strings), clamp to [0, 100], grade by bands, and report
the score and mapping rate rounded to one decimal. -/
def calculateQualityScore (originalColumns : List String)
    (mapping : List (String × String)) (anomalies : List Anomaly) :
    QualityScore :=
  let mappingRate : ℚ :=
    if originalColumns.isEmpty then 0
    else (mapping.length : ℚ) / (originalColumns.length : ℚ) * 100
  let s1 : ℚ :=
    if mappingRate < 80 then 100 - (80 - mappingRate) * (3/10) else 100
  let high := (anomalies.filter (fun a => a.severity == "high")).length
  let medium := (anomalies.filter (fun a => a.severity == "medium")).length
  let low := (anomalies.filter (fun a => a.severity == "low")).length
  let s2 : ℚ := s1 - 10 * high - 5 * medium - 2 * low
  let score : ℚ := max 0 (min 100 s2)
  let gg : String × String :=
    if 90 ≤ score then ("A", "우수")
    else if 70 ≤ score then ("B", "양호")
    else if 50 ≤ score then ("C", "보통")
    else ("D", "주의필요")
  ⟨pyRound1 score, gg.1, gg.2, pyRound1 mappingRate, high, medium, low⟩

/-! ## Concrete fixtures

Small tables used to instantiate the theorems below, built to match the
spec's end-to-end scenario and the counterexample inputs. -/

/-- Sales table of the end-to-end scenario: one transaction of 1,000,000. -/
def dfS : DataFrame :=
  ⟨["전표일자", "거래처명", "제품명", "수량", "원화환산액"],
   [[("전표일자", Value.str "2024-01-15"), ("거래처명", Value.str "A사"),
     ("제품명", Value.str "P1"), ("수량", Value.num 10),
     ("원화환산액", Value.num 1000000)]]⟩

/-- Purchases table of the scenario: one purchase of 400,000. -/
def dfP : DataFrame :=
  ⟨["전표일자", "공급업체명", "품목명", "수량", "공급가액"],
   [[("전표일자", Value.str "2024-01-10"), ("공급업체명", Value.str "B사"),
     ("품목명", Value.str "원자재A"), ("수량", Value.num 100),
     ("공급가액", Value.num 400000)]]⟩

/-- Payroll table of the scenario: 150,000 direct and 50,000 indirect labor. -/
def dfPay : DataFrame :=
  ⟨["부서", "기본급", "지급총액", "원가구분"],
   [[("부서", Value.str "생산"), ("기본급", Value.num 140000),
     ("지급총액", Value.num 150000), ("원가구분", Value.str "직접노무비")],
    [("부서", Value.str "관리"), ("기본급", Value.num 45000),
     ("지급총액", Value.num 50000), ("원가구분", Value.str "간접노무비")]]⟩

/-- Manufacturing-overhead table of the scenario: 100,000. -/
def dfM : DataFrame :=
  ⟨["전표일자", "계정과목", "차변금액"],
   [[("전표일자", Value.str "2024-01-20"), ("계정과목", Value.str "전력비"),
     ("차변금액", Value.num 100000)]]⟩

/-- Inventory table of the scenario: raw material 50,000 → 70,000, no
WIP/finished-goods rows. -/
def dfI : DataFrame :=
  ⟨["품목명", "품목분류", "기초금액", "기말금액", "입고금액", "출고금액"],
   [[("품목명", Value.str "원자재A"), ("품목분류", Value.str "원재료"),
     ("기초금액", Value.num 50000), ("기말금액", Value.num 70000),
     ("입고금액", Value.num 30000), ("출고금액", Value.num 10000)]]⟩

/-- SG&A table of the scenario: 80,000. -/
def dfG : DataFrame :=
  ⟨["전표일자", "계정과목", "차변금액"],
   [[("전표일자", Value.str "2024-01-25"), ("계정과목", Value.str "광고비"),
     ("차변금액", Value.num 80000)]]⟩

/-- The spec's end-to-end scenario: all six datasets loaded. -/
def scenarioStore : Store := ⟨some dfS, some dfP, some dfPay, some dfM, some dfI, some dfG⟩

/-- Store with only sales and purchases loaded. -/
def salesPurchasesStore : Store := ⟨some dfS, some dfP, none, none, none, none⟩

/-- A sales upload whose date column is a synonym (`날짜`) and which lacks
any column resolving to `원화환산액`. -/
def dfMissingAmount : DataFrame :=
  ⟨["날짜", "거래처명", "제품명", "수량"],
   [[("날짜", Value.str "2024-01-01"), ("거래처명", Value.str "A"),
     ("제품명", Value.str "P"), ("수량", Value.num 1)]]⟩

/-- A payroll table with one row whose cost-type flag is neither
`직접노무비` nor `간접노무비`. -/
def dfUnknownFlag : DataFrame :=
  ⟨["부서", "기본급", "지급총액", "원가구분"],
   [[("부서", Value.str "생산"), ("기본급", Value.num 90),
     ("지급총액", Value.num 100), ("원가구분", Value.str "기타")]]⟩

/-- An inventory upload holding exactly the four required inventory
columns and neither optional amount column. -/
def dfInvFourCols : DataFrame :=
  ⟨["품목명", "품목분류", "기초금액", "기말금액"],
   [[("품목명", Value.str "원자재A"), ("품목분류", Value.str "원재료"),
     ("기초금액", Value.num 0), ("기말금액", Value.num 20000)]]⟩

/-- Store holding only the four-column inventory table. -/
def invOnlyStore : Store := ⟨none, none, none, none, some dfInvFourCols, none⟩

/-! ## Inversion helpers for `Except` -/

theorem except_map_ok {α β : Type} {f : α → β} {x : Except String α} {b : β}
    (h : Except.map f x = Except.ok b) : ∃ a, x = Except.ok a ∧ b = f a := by
  cases x with
  | error e => simp [Except.map] at h
  | ok a =>
    refine ⟨a, rfl, ?_⟩
    simpa [Except.map] using h.symm

theorem except_bind_ok {α β : Type} {x : Except String α}
    {f : α → Except String β} {b : β}
    (h : Except.bind x f = Except.ok b) :
    ∃ a, x = Except.ok a ∧ f a = Except.ok b := by
  cases x with
  | error e => simp [Except.bind] at h
  | ok a => exact ⟨a, rfl, h⟩

/-- A successful synthesis is the statement arithmetic applied to some
gathered inputs. -/
theorem generateIncomeStatement_ok {store : Store} {e w : List String}
    {r : StatementResult}
    (h : generateIncomeStatement store e w = Except.ok r) :
    ∃ x : StmtInputs × List String × List String,
      gatherInputs store e w = Except.ok x ∧
      r = ⟨buildStatement x.1, x.2.1, x.2.2⟩ := by
  obtain ⟨a, ha, hb⟩ := except_map_ok h
  exact ⟨a, ha, hb⟩

/-- **C2.** For every session store (hence for every combination of
present and absent optional datasets) and any result the synthesis
produces, `cost_of_goods_sold.total + gross_profit = revenue.total`
exactly. -/
theorem cogs_plus_gross_profit_eq_revenue (store : Store)
    (e w : List String) (r : StatementResult)
    (h : generateIncomeStatement store e w = Except.ok r) :
    r.income_statement.cogs_total + r.income_statement.gross_profit =
      r.income_statement.revenue_total := by
  obtain ⟨x, _, hr⟩ := generateIncomeStatement_ok h
  subst hr
  simp only [buildStatement]
  ring

/-- Witness for C2: the accounting identity at the scenario store. -/
theorem cogs_plus_gross_profit_eq_revenue_witness :
    ∃ r, generateIncomeStatement scenarioStore [] [] = Except.ok r ∧
      r.income_statement.cogs_total + r.income_statement.gross_profit =
        r.income_statement.revenue_total := by
  obtain ⟨r, hr⟩ : ∃ r, generateIncomeStatement scenarioStore [] [] = Except.ok r :=
    ⟨_, rfl⟩
  exact ⟨r, hr, cogs_plus_gross_profit_eq_revenue scenarioStore [] [] r hr⟩

/-- **C9.** The ratio fields are division-guarded: whenever the revenue
total of a produced statement is 0 or negative, all three ratios are 0
(and, the arithmetic being total on `ℚ`, no division error can occur). -/
theorem ratios_guarded_by_revenue (store : Store) (e w : List String)
    (r : StatementResult)
    (h : generateIncomeStatement store e w = Except.ok r)
    (hrev : r.income_statement.revenue_total ≤ 0) :
    r.income_statement.ratios = ⟨0, 0, 0⟩ := by
  obtain ⟨x, _, hr⟩ := generateIncomeStatement_ok h
  subst hr
  simp only [buildStatement] at hrev ⊢
  rw [if_neg (by exact not_lt.mpr hrev), if_neg (by exact not_lt.mpr hrev),
    if_neg (by exact not_lt.mpr hrev)]

/-- Witness for C9: synthesis over the empty store has revenue 0 and all
ratios 0. -/
theorem ratios_guarded_by_revenue_witness :
    ∃ r, generateIncomeStatement emptyStore [] [] = Except.ok r ∧
      r.income_statement.revenue_total ≤ 0 ∧
      r.income_statement.ratios = ⟨0, 0, 0⟩ := by
  have hval : generateIncomeStatement emptyStore [] [] =
      Except.ok ⟨buildStatement ⟨0, 0, 0, 0, 0, 0, 0, 0, 0, 0, 0⟩,
        ["매출전표 데이터가 없습니다.", "매입전표 데이터가 없습니다.",
         "급여대장 데이터가 없습니다.", "제조경비 데이터가 없습니다.",
         "판매관리비 데이터가 없습니다."],
        ["재고 데이터 없음 - 재고 변동 미반영"]⟩ := by rfl
  exact ⟨_, hval, by decide,
    ratios_guarded_by_revenue emptyStore [] [] _ hval (by decide)⟩

/-! ## Dataset aggregates named by the claims -/

/-- Inventory change of one category: ending minus beginning over the
rows whose `품목분류` equals `category`. -/
def invChange (df : DataFrame) (category : String) : ℚ :=
  colSum (filterRows df "품목분류" category) "기말금액"
    - colSum (filterRows df "품목분류" category) "기초금액"

/-- Direct labor: total pay of the rows flagged `직접노무비`. -/
def directLaborSum (df : DataFrame) : ℚ :=
  colSum (filterRows df "원가구분" "직접노무비") "지급총액"

/-- Indirect labor: total pay of the rows flagged `간접노무비`. -/
def indirectLaborSum (df : DataFrame) : ℚ :=
  colSum (filterRows df "원가구분" "간접노무비") "지급총액"

/-- **C1.** With all six datasets loaded, the synthesis succeeds and
derives the statement by the absorption-costing steps: raw-material cost
is the purchases total minus the raw-material inventory change (ending −
beginning); cost of goods sold adds direct labor and manufacturing
overhead and subtracts the WIP and finished-goods changes; gross profit
is revenue minus COGS; SG&A total is the sg-expense total plus indirect
labor; operating profit is gross profit minus the SG&A total. -/
theorem generate_income_statement_absorption_costing
    (sdf pdf ydf mdf idf gdf : DataFrame) (e w : List String)
    (hS1 : "원화환산액" ∈ sdf.cols) (hS2 : "거래처명" ∈ sdf.cols)
    (hP1 : "공급가액" ∈ pdf.cols) (hP2 : "공급업체명" ∈ pdf.cols)
    (hY1 : "지급총액" ∈ ydf.cols) (hY2 : "원가구분" ∈ ydf.cols)
    (hY3 : "부서" ∈ ydf.cols)
    (hM1 : "차변금액" ∈ mdf.cols) (hM2 : "계정과목" ∈ mdf.cols)
    (hI1 : "품목분류" ∈ idf.cols) (hI2 : "기초금액" ∈ idf.cols)
    (hI3 : "기말금액" ∈ idf.cols) (hI4 : "입고금액" ∈ idf.cols)
    (hI5 : "출고금액" ∈ idf.cols)
    (hG1 : "차변금액" ∈ gdf.cols) (hG2 : "계정과목" ∈ gdf.cols) :
    ∃ r, generateIncomeStatement
        ⟨some sdf, some pdf, some ydf, some mdf, some idf, some gdf⟩ e w =
        Except.ok r ∧
      r.income_statement.revenue_total = colSum sdf "원화환산액" ∧
      r.income_statement.bd_raw_materials =
        colSum pdf "공급가액" - invChange idf "원재료" ∧
      r.income_statement.cogs_total =
        (colSum pdf "공급가액" - invChange idf "원재료") + directLaborSum ydf
          + colSum mdf "차변금액" - invChange idf "재공품" - invChange idf "제품" ∧
      r.income_statement.gross_profit =
        r.income_statement.revenue_total - r.income_statement.cogs_total ∧
      r.income_statement.sga_total =
        colSum gdf "차변금액" + indirectLaborSum ydf ∧
      r.income_statement.operating_profit =
        r.income_statement.gross_profit - r.income_statement.sga_total := by
  simp only [generateIncomeStatement, gatherInputs, salesStep, purchasesStep,
    payrollStep, mfgStep, inventoryStep, sgStep, processSales,
    processPurchases, processPayroll, processManufacturingExpenses,
    processInventory, processSellingAdminExpenses,
    hS1, hS2, hP1, hP2, hY1, hY2, hY3, hM1, hM2, hI1, hI2, hI3, hI4, hI5,
    hG1, hG2, if_true, Except.map, Except.bind]
  refine ⟨_, rfl, ?_, ?_, ?_, ?_, ?_, ?_⟩ <;>
    simp only [buildStatement, invChange, directLaborSum, indirectLaborSum]

/-- Witness for C1: the spec's end-to-end scenario yields
raw materials 380,000, COGS 630,000, gross profit 370,000, SG&A 130,000
and operating profit 240,000. -/
theorem generate_income_statement_absorption_costing_witness :
    ∃ r, generateIncomeStatement scenarioStore [] [] = Except.ok r ∧
      r.income_statement.bd_raw_materials = 380000 ∧
      r.income_statement.cogs_total = 630000 ∧
      r.income_statement.gross_profit = 370000 ∧
      r.income_statement.sga_total = 130000 ∧
      r.income_statement.operating_profit = 240000 := by
  obtain ⟨r, hr, h1, h2, h3, h4, h5, h6⟩ :=
    generate_income_statement_absorption_costing dfS dfP dfPay dfM dfI dfG [] []
      (by decide) (by decide) (by decide) (by decide) (by decide) (by decide)
      (by decide) (by decide) (by decide) (by decide) (by decide) (by decide)
      (by decide) (by decide) (by decide) (by decide)
  refine ⟨r, hr, ?_, ?_, ?_, ?_, ?_⟩ <;>
    simp only [h1, h2, h3, h4, h5, h6] <;>
    simp [colSum, invChange, directLaborSum, indirectLaborSum, filterRows,
      cellVal, numOf, dfS, dfP, dfPay, dfM, dfI, dfG] <;>
    norm_num

/-- **C3 (amended).** With only sales and purchases loaded, the synthesis
succeeds, every absent dataset contributes 0, the absent inventory
dataset is recorded as a warning, and the absent payroll, overhead and
sg-expense datasets are recorded in the `errors` list (non-fatally). -/
theorem sales_purchases_only_synthesis (sdf pdf : DataFrame)
    (e w : List String)
    (hS1 : "원화환산액" ∈ sdf.cols) (hS2 : "거래처명" ∈ sdf.cols)
    (hP1 : "공급가액" ∈ pdf.cols) (hP2 : "공급업체명" ∈ pdf.cols) :
    ∃ r, generateIncomeStatement
        ⟨some sdf, some pdf, none, none, none, none⟩ e w = Except.ok r ∧
      r.income_statement.revenue_total = colSum sdf "원화환산액" ∧
      r.income_statement.bd_raw_materials = colSum pdf "공급가액" ∧
      r.income_statement.bd_direct_labor = 0 ∧
      r.income_statement.bd_indirect_labor = 0 ∧
      r.income_statement.bd_manufacturing_overhead = 0 ∧
      r.income_statement.bd_sg_expenses = 0 ∧
      r.income_statement.bd_inventory_adjustment = 0 ∧
      r.errors = e ++ ["급여대장 데이터가 없습니다.", "제조경비 데이터가 없습니다.",
        "판매관리비 데이터가 없습니다."] ∧
      r.warnings = w ++ ["재고 데이터 없음 - 재고 변동 미반영"] := by
  simp only [generateIncomeStatement, gatherInputs, salesStep, purchasesStep,
    payrollStep, mfgStep, inventoryStep, sgStep, processSales,
    processPurchases, hS1, hS2, hP1, hP2, if_true, Except.map, Except.bind]
  refine ⟨_, rfl, ?_, ?_, ?_, ?_, ?_, ?_, ?_, ?_, ?_⟩ <;>
    simp [buildStatement, List.append_assoc]

/-- Witness for C3 (amended): the concrete sales + purchases store. -/
theorem sales_purchases_only_synthesis_witness :
    ∃ r, generateIncomeStatement salesPurchasesStore [] [] = Except.ok r ∧
      r.income_statement.bd_direct_labor = 0 ∧
      r.errors = ["급여대장 데이터가 없습니다.", "제조경비 데이터가 없습니다.",
        "판매관리비 데이터가 없습니다."] ∧
      r.warnings = ["재고 데이터 없음 - 재고 변동 미반영"] := by
  obtain ⟨r, hr, _, _, h3, _, _, _, _, h8, h9⟩ :=
    sales_purchases_only_synthesis dfS dfP [] []
      (by decide) (by decide) (by decide) (by decide)
  exact ⟨r, hr, h3, by rw [h8]; rfl, by rw [h9]; rfl⟩

/-- Counterexample for C3 as frozen: with only sales and purchases
loaded, four optional datasets are absent but the synthesis records
exactly one warning (the inventory one); the payroll message lands in
`errors`, not `warnings`. -/
theorem sales_purchases_only_warning_counterexample :
    salesPurchasesStore.payroll = none ∧
    salesPurchasesStore.mfg_expenses = none ∧
    salesPurchasesStore.inventory = none ∧
    salesPurchasesStore.sg_expenses = none ∧
    ∃ r, generateIncomeStatement salesPurchasesStore [] [] = Except.ok r ∧
      r.warnings = ["재고 데이터 없음 - 재고 변동 미반영"] ∧
      ¬ "급여대장 데이터가 없습니다." ∈ r.warnings ∧
      "급여대장 데이터가 없습니다." ∈ r.errors := by
  refine ⟨rfl, rfl, rfl, rfl, _, rfl, by decide, by decide, by decide⟩

/-! ## Store isolation of `load_excel` (C5) -/

/-- Replacing one slot leaves every other slot unchanged. -/
theorem store_get_set_ne (s : Store) (dt dt' : DatasetType) (df : DataFrame)
    (h : dt' ≠ dt) : Store.get (Store.set s dt df) dt' = Store.get s dt' := by
  cases dt <;> cases dt' <;> simp_all [Store.get, Store.set]

/-- **C5.** A rejected upload (empty file or missing required columns)
leaves the whole session store — the slot for the uploaded type and all
other slots — unchanged; a successful upload replaces the slot for its
dataset type with the freshly processed table (an expression in the
upload alone, independent of any prior slot content) and leaves every
other slot unchanged. -/
theorem load_excel_store_isolation (store : Store) (dt : DatasetType)
    (df : DataFrame) (m : List (String × String)) :
    ((loadExcel store dt df m).1.success = false →
      (loadExcel store dt df m).2 = store) ∧
    ((loadExcel store dt df m).1.success = true →
      (loadExcel store dt df m).2 =
        store.set dt
          (resolveRequired (applyColumnMapping df m) (requiredColumns dt)).1 ∧
      ∀ dt', dt' ≠ dt →
        Store.get (loadExcel store dt df m).2 dt' = Store.get store dt') := by
  simp only [loadExcel]
  split_ifs with h1 h2
  · exact ⟨fun _ => rfl, by simp⟩
  · refine ⟨by simp, fun _ => ⟨rfl, fun dt' h => store_get_set_ne store dt dt' _ h⟩⟩
  · exact ⟨fun _ => rfl, by simp⟩

/-- Witness for C5: the rejected upload of an empty table leaves the
scenario store untouched, and a successful payroll upload replaces only
the payroll slot. -/
theorem load_excel_store_isolation_witness :
    (loadExcel scenarioStore DatasetType.payroll ⟨["부서"], []⟩ []).2 =
      scenarioStore ∧
    Store.get (loadExcel scenarioStore DatasetType.payroll dfPay []).2
        DatasetType.sales = Store.get scenarioStore DatasetType.sales := by
  constructor
  · exact (load_excel_store_isolation scenarioStore DatasetType.payroll
      ⟨["부서"], []⟩ []).1 rfl
  · exact ((load_excel_store_isolation scenarioStore DatasetType.payroll
      dfPay []).2 (by decide)).2 DatasetType.sales (by decide)

/-! ## The inventory aggregation raise (C10) -/

/-- An empty column mapping renames nothing. -/
theorem applyColumnMapping_nil (df : DataFrame) :
    applyColumnMapping df [] = df := by
  cases df with
  | mk cols rows =>
    simp [applyColumnMapping]

/-- When every required column is already present by exact name, the
resolution loop leaves the table unchanged and reports nothing missing. -/
theorem resolveRequired_all_present (reqs : List String) (df : DataFrame)
    (h : ∀ r ∈ reqs, r ∈ df.cols) : resolveRequired df reqs = (df, []) := by
  induction reqs with
  | nil => rfl
  | cons r rest ih =>
    have hr : r ∈ df.cols := h r (by simp)
    rw [resolveRequired, if_pos hr]
    exact ih fun x hx => h x (by simp [hx])

/-- A successful synthesis implies the inventory slot's table, when
present, was processed without raising. -/
theorem generateIncomeStatement_ok_inventory {store : Store}
    {e w : List String} {r : StatementResult}
    (h : generateIncomeStatement store e w = Except.ok r)
    (df : DataFrame) (hdf : store.inventory = some df) :
    ∃ inv, processInventory df = Except.ok inv := by
  obtain ⟨x, hx, _⟩ := generateIncomeStatement_ok h
  rw [gatherInputs] at hx
  obtain ⟨sa, hsa, hx⟩ := except_bind_ok hx
  obtain ⟨pu, hpu, hx⟩ := except_bind_ok hx
  obtain ⟨pay, hpay, hx⟩ := except_bind_ok hx
  obtain ⟨mf, hmf, hx⟩ := except_bind_ok hx
  obtain ⟨inv, hinv, hx⟩ := except_bind_ok hx
  rw [hdf] at hinv
  simp only [inventoryStep] at hinv
  obtain ⟨a, ha, _⟩ := except_map_ok hinv
  exact ⟨a, ha⟩

/-- **C10.** An inventory table holding exactly the four required
inventory columns and neither optional amount column passes the
`load_excel` validation (it is accepted and stored), yet
`process_inventory` raises on it — and therefore
`generate_income_statement` raises for any store holding it, instead of
returning a statement. -/
theorem inventory_agg_missing_columns_raises (df : DataFrame) (store : Store)
    (h1 : "품목명" ∈ df.cols) (h2 : "품목분류" ∈ df.cols)
    (h3 : "기초금액" ∈ df.cols) (h4 : "기말금액" ∈ df.cols)
    (h5 : "입고금액" ∉ df.cols) (hrows : df.rows ≠ []) :
    (loadExcel store DatasetType.inventory df []).1.success = true ∧
    (loadExcel store DatasetType.inventory df []).2.inventory = some df ∧
    processInventory df = Except.error "KeyError: 입고금액" ∧
    ∀ (st : Store) (e w : List String) (r : StatementResult),
      st.inventory = some df → generateIncomeStatement st e w ≠ Except.ok r := by
  have hall : ∀ c ∈ requiredColumns DatasetType.inventory, c ∈ df.cols := by
    intro c hc
    simp only [requiredColumns, List.mem_cons, List.mem_singleton] at hc
    rcases hc with rfl | rfl | rfl | rfl | hc
    · exact h1
    · exact h2
    · exact h3
    · exact h4
    · cases hc
  have hres : resolveRequired (applyColumnMapping df [])
      (requiredColumns DatasetType.inventory) = (df, []) := by
    rw [applyColumnMapping_nil]
    exact resolveRequired_all_present _ _ hall
  have hempty : df.rows.isEmpty = false := by
    cases hr : df.rows with
    | nil => exact absurd hr hrows
    | cons a l => rfl
  have hproc : processInventory df = Except.error "KeyError: 입고금액" := by
    simp [processInventory, h2, h3, h4, h5]
  refine ⟨?_, ?_, hproc, ?_⟩
  · simp [loadExcel, hempty, hres]
  · simp [loadExcel, hempty, hres, Store.set]
  · intro st e w r hst hgen
    obtain ⟨inv, hinv⟩ := generateIncomeStatement_ok_inventory hgen df hst
    rw [hproc] at hinv
    cases hinv

/-- Witness for C10: the concrete four-column inventory table is accepted
by `load_excel` but makes the synthesis raise. -/
theorem inventory_agg_missing_columns_raises_witness :
    (loadExcel emptyStore DatasetType.inventory dfInvFourCols []).1.success = true ∧
    (loadExcel emptyStore DatasetType.inventory dfInvFourCols []).2.inventory =
      some dfInvFourCols ∧
    processInventory dfInvFourCols = Except.error "KeyError: 입고금액" ∧
    generateIncomeStatement invOnlyStore [] [] =
      Except.error "KeyError: 입고금액" := by
  have h := inventory_agg_missing_columns_raises dfInvFourCols emptyStore
    (by decide) (by decide) (by decide) (by decide) (by decide) (by decide)
  exact ⟨h.1, h.2.1, h.2.2.1, by rfl⟩

/-! ## Required-column rejection (C4)

The resolution loop renames columns as it walks the required list, so to
characterise the final `missing` list we track which column names a later
iteration could rename away. -/

/-- `wouldRename col req` holds when the resolution step for the required
column `req` could select a column named `col` for renaming: either the
two normalise alike, or `col` (stripped) matches a synonym of `req`
exactly or case-insensitively. -/
def wouldRename (col req : String) : Bool :=
  pyNormalize col == pyNormalize req ||
    (synonyms req).any (fun alt =>
      pyStrip col == alt || pyLower (pyStrip col) == pyLower alt)

/-- A column kept by a rename step: any name other than the renamed one
survives. -/
theorem renameCol_keeps {df : DataFrame} {col name : String} (req : String)
    (hmem : name ∈ df.cols) (hne : name ≠ col) :
    name ∈ (renameCol df col req).cols := by
  simp only [renameCol, List.mem_map]
  exact ⟨name, hmem, if_neg hne⟩

/-- The rename target is present afterwards whenever the source column
existed. -/
theorem renameCol_mem_new {df : DataFrame} {col : String} (req : String)
    (hcol : col ∈ df.cols) : req ∈ (renameCol df col req).cols := by
  simp only [renameCol, List.mem_map]
  exact ⟨col, hcol, if_pos rfl⟩

/-- A name absent before a rename stays absent unless it is the rename
target. -/
theorem renameCol_not_mem {df : DataFrame} {col req name : String}
    (hmem : name ∉ df.cols) (hne : name ≠ req) :
    name ∉ (renameCol df col req).cols := by
  simp only [renameCol, List.mem_map]
  rintro ⟨a, ha, haeq⟩
  by_cases hac : a = col
  · rw [hac, if_pos rfl] at haeq
    exact hne haeq.symm
  · rw [if_neg hac] at haeq
    exact hmem (haeq ▸ ha)

/-- The missing list only ever holds required columns. -/
theorem resolveRequired_missing_subset (reqs : List String) :
    ∀ df : DataFrame, (resolveRequired df reqs).2 ⊆ reqs := by
  induction reqs with
  | nil => intro df x hx; exact absurd hx (by simp [resolveRequired])
  | cons req rest ih =>
    intro df x hx
    rw [resolveRequired] at hx
    by_cases hex : req ∈ df.cols
    · rw [if_pos hex] at hx
      exact List.mem_cons_of_mem _ (ih df hx)
    · rw [if_neg hex] at hx
      cases hfind : df.cols.find? (fun col => pyNormalize col == pyNormalize req) with
      | some col =>
        rw [hfind] at hx
        exact List.mem_cons_of_mem _ (ih _ hx)
      | none =>
        rw [hfind] at hx
        cases halt : findAlternativeColumn req df.cols with
        | some col =>
          rw [halt] at hx
          exact List.mem_cons_of_mem _ (ih _ hx)
        | none =>
          rw [halt] at hx
          rcases List.mem_cons.mp hx with h | h
          · exact h ▸ List.mem_cons_self _ _
          · exact List.mem_cons_of_mem _ (ih df h)

/-- A present column survives the whole resolution loop when no later
required column could rename it away. -/
theorem mem_cols_resolveRequired (reqs : List String) :
    ∀ (df : DataFrame) (name : String), name ∈ df.cols →
    (∀ r ∈ reqs, wouldRename name r = false) →
    name ∈ (resolveRequired df reqs).1.cols := by
  induction reqs with
  | nil => intro df name h _; simpa [resolveRequired] using h
  | cons req rest ih =>
    intro df name hmem hsafe
    have hsafeHead : wouldRename name req = false := hsafe req (List.mem_cons_self _ _)
    have hsafeRest : ∀ r ∈ rest, wouldRename name r = false :=
      fun r hr => hsafe r (List.mem_cons_of_mem _ hr)
    have hnorm : ¬ pyNormalize name = pyNormalize req := by
      simp only [wouldRename, Bool.or_eq_false_iff, beq_eq_false_iff_ne, ne_eq] at hsafeHead
      exact hsafeHead.1
    have hsyn : ∀ alt ∈ synonyms req,
        ¬ pyStrip name = alt ∧ ¬ pyLower (pyStrip name) = pyLower alt := by
      intro alt halt
      simp only [wouldRename, Bool.or_eq_false_iff, List.any_eq_false,
        beq_eq_false_iff_ne, ne_eq] at hsafeHead
      have h := hsafeHead.2 alt halt
      simp only [Bool.or_eq_true, beq_iff_eq, not_or] at h
      exact h
    rw [resolveRequired]
    by_cases hex : req ∈ df.cols
    · rw [if_pos hex]; exact ih df name hmem hsafeRest
    · rw [if_neg hex]
      cases hfind : df.cols.find? (fun col => pyNormalize col == pyNormalize req) with
      | some col =>
        have hcolne : name ≠ col := by
          intro heq
          have hp := List.find?_some hfind
          rw [← heq] at hp
          exact hnorm (by simpa using hp)
        exact ih _ name (renameCol_keeps req hmem hcolne) hsafeRest
      | none =>
        cases halt : findAlternativeColumn req df.cols with
        | some col =>
          have hcolne : name ≠ col := by
            intro heq
            have hp := List.find?_some halt
            rw [← heq] at hp
            simp only [List.any_eq_true, Bool.or_eq_true, beq_iff_eq] at hp
            obtain ⟨alt, haltmem, hcase⟩ := hp
            rcases hcase with hcase | hcase
            · exact (hsyn alt haltmem).1 hcase
            · exact (hsyn alt haltmem).2 hcase
          exact ih _ name (renameCol_keeps req hmem hcolne) hsafeRest
        | none => exact ih df name hmem hsafeRest

/-- An absent column name that is not among the remaining required
columns stays absent. -/
theorem not_mem_cols_resolveRequired (reqs : List String) :
    ∀ (df : DataFrame) (name : String), name ∉ df.cols → name ∉ reqs →
    name ∉ (resolveRequired df reqs).1.cols := by
  induction reqs with
  | nil => intro df name h _; simpa [resolveRequired] using h
  | cons req rest ih =>
    intro df name hmem hnin
    have hne : name ≠ req := fun h => hnin (h ▸ List.mem_cons_self _ _)
    have hninRest : name ∉ rest := fun h => hnin (List.mem_cons_of_mem _ h)
    rw [resolveRequired]
    by_cases hex : req ∈ df.cols
    · rw [if_pos hex]; exact ih df name hmem hninRest
    · rw [if_neg hex]
      cases hfind : df.cols.find? (fun col => pyNormalize col == pyNormalize req) with
      | some col =>
        exact ih _ name (renameCol_not_mem hmem hne) hninRest
      | none =>
        cases halt : findAlternativeColumn req df.cols with
        | some col => exact ih _ name (renameCol_not_mem hmem hne) hninRest
        | none => exact ih df name hmem hninRest

/-- The characterisation of the missing list: under the independence of
the source's required-column lists (no entry can rename away an earlier
entry), a required column ends up in the missing list exactly when no
column of the resolved table carries its name. -/
theorem resolveRequired_missing_iff (reqs : List String) :
    ∀ df : DataFrame, reqs.Nodup →
    List.Pairwise (fun a b => wouldRename a b = false) reqs →
    ∀ req ∈ reqs,
      (req ∈ (resolveRequired df reqs).2 ↔
        req ∉ (resolveRequired df reqs).1.cols) := by
  induction reqs with
  | nil => intro df _ _ req hreq; cases hreq
  | cons req0 rest ih =>
    intro df hnodup hpair req hreq
    have hnodupRest := (List.nodup_cons.mp hnodup).2
    have hnotinRest := (List.nodup_cons.mp hnodup).1
    have hpairRest := (List.pairwise_cons.mp hpair).2
    have hsafeRest := (List.pairwise_cons.mp hpair).1
    rcases List.mem_cons.mp hreq with rfl | hreqRest
    · -- the head required column
      rw [resolveRequired]
      by_cases hex : req ∈ df.cols
      · rw [if_pos hex]
        have hkeep := mem_cols_resolveRequired rest df req hex hsafeRest
        have hsub := resolveRequired_missing_subset rest df
        exact ⟨fun h => absurd (hsub h) hnotinRest, fun h => absurd hkeep h⟩
      · rw [if_neg hex]
        cases hfind : df.cols.find? (fun col => pyNormalize col == pyNormalize req) with
        | some col =>
          have hmem' : req ∈ (renameCol df col req).cols :=
            renameCol_mem_new req (List.mem_of_find?_eq_some hfind)
          have hkeep := mem_cols_resolveRequired rest _ req hmem' hsafeRest
          have hsub := resolveRequired_missing_subset rest (renameCol df col req)
          exact ⟨fun h => absurd (hsub h) hnotinRest, fun h => absurd hkeep h⟩
        | none =>
          cases halt : findAlternativeColumn req df.cols with
          | some col =>
            have hmem' : req ∈ (renameCol df col req).cols :=
              renameCol_mem_new req (List.mem_of_find?_eq_some halt)
            have hkeep := mem_cols_resolveRequired rest _ req hmem' hsafeRest
            have hsub := resolveRequired_missing_subset rest (renameCol df col req)
            exact ⟨fun h => absurd (hsub h) hnotinRest, fun h => absurd hkeep h⟩
          | none =>
            have hgone := not_mem_cols_resolveRequired rest df req hex hnotinRest
            exact ⟨fun _ => hgone, fun _ => List.mem_cons_self _ _⟩
    · -- a required column further down the list
      have hne : req ≠ req0 := fun h =>
        hnotinRest (h ▸ hreqRest)
      rw [resolveRequired]
      by_cases hex : req0 ∈ df.cols
      · rw [if_pos hex]; exact ih df hnodupRest hpairRest req hreqRest
      · rw [if_neg hex]
        cases hfind : df.cols.find? (fun col => pyNormalize col == pyNormalize req0) with
        | some col => exact ih _ hnodupRest hpairRest req hreqRest
        | none =>
          cases halt : findAlternativeColumn req0 df.cols with
          | some col => exact ih _ hnodupRest hpairRest req hreqRest
          | none =>
            have := ih df hnodupRest hpairRest req hreqRest
            constructor
            · intro h
              rcases List.mem_cons.mp h with h' | h'
              · exact absurd h' hne
              · exact this.mp h'
            · intro h
              exact List.mem_cons_of_mem _ (this.mpr h)

/-- Each of the six required-column lists is duplicate-free. -/
theorem requiredColumns_nodup (dt : DatasetType) : (requiredColumns dt).Nodup := by
  cases dt <;> decide

/-- No required column of a dataset type can be renamed away while a
later required column of the same list is resolved. -/
theorem requiredColumns_independent (dt : DatasetType) :
    List.Pairwise (fun a b => wouldRename a b = false) (requiredColumns dt) := by
  cases dt <;> decide

/-- **C4 (amended).** Whenever resolution leaves some required column
unmatched (on a non-empty upload), `load_excel` rejects: success is
false, the result's missing list holds exactly the required columns that
are absent from the resolved table (each named in the error message),
and the reported columns are the table's columns as of the rejection —
i.e. with every already-resolved column renamed to its canonical name,
not the originally observed names. -/
theorem rejection_names_missing_required (store : Store) (dt : DatasetType)
    (df : DataFrame) (m : List (String × String))
    (hrows : df.rows ≠ [])
    (hmiss : (resolveRequired (applyColumnMapping df m) (requiredColumns dt)).2 ≠ []) :
    (loadExcel store dt df m).1.success = false ∧
    (loadExcel store dt df m).1.missing =
      (resolveRequired (applyColumnMapping df m) (requiredColumns dt)).2 ∧
    (loadExcel store dt df m).1.error =
      some ("필수 컬럼 누락: " ++ String.intercalate ", "
        (resolveRequired (applyColumnMapping df m) (requiredColumns dt)).2) ∧
    (loadExcel store dt df m).1.found_columns =
      some (resolveRequired (applyColumnMapping df m) (requiredColumns dt)).1.cols ∧
    ∀ req ∈ requiredColumns dt,
      (req ∈ (loadExcel store dt df m).1.missing ↔
        req ∉ (resolveRequired (applyColumnMapping df m) (requiredColumns dt)).1.cols) := by
  have hempty : df.rows.isEmpty = false := by
    cases hr : df.rows with
    | nil => exact absurd hr hrows
    | cons a l => rfl
  have hmiss' : (resolveRequired (applyColumnMapping df m)
      (requiredColumns dt)).2.isEmpty = false := by
    cases hr : (resolveRequired (applyColumnMapping df m) (requiredColumns dt)).2 with
    | nil => exact absurd hr hmiss
    | cons a l => rfl
  refine ⟨?_, ?_, ?_, ?_, ?_⟩ <;>
    simp only [loadExcel, hempty, Bool.false_eq_true, if_false, hmiss']
  intro req hreq
  exact resolveRequired_missing_iff (requiredColumns dt)
    (applyColumnMapping df m) (requiredColumns_nodup dt)
    (requiredColumns_independent dt) req hreq

/-- Witness for C4 (amended): the sales upload lacking any column for
`원화환산액` is rejected with that field in the missing list, which indeed
is absent from the resolved columns. -/
theorem rejection_names_missing_required_witness :
    (loadExcel emptyStore DatasetType.sales dfMissingAmount []).1.success = false ∧
    (loadExcel emptyStore DatasetType.sales dfMissingAmount []).1.missing =
      ["원화환산액"] ∧
    (loadExcel emptyStore DatasetType.sales dfMissingAmount []).1.error =
      some "필수 컬럼 누락: 원화환산액" := by
  have h := rejection_names_missing_required emptyStore DatasetType.sales
    dfMissingAmount [] (by decide) (by decide)
  refine ⟨h.1, ?_, ?_⟩
  · rw [h.2.1]; decide
  · rw [h.2.2.1]; decide

/-- Counterexample for C4 as frozen: the rejection does not list the
originally observed columns — the observed synonym column `날짜` was
renamed to `전표일자` before the rejection, so it is missing from the
reported column set. -/
theorem rejection_found_columns_counterexample :
    (loadExcel emptyStore DatasetType.sales dfMissingAmount []).1.success = false ∧
    "날짜" ∈ dfMissingAmount.cols ∧
    (loadExcel emptyStore DatasetType.sales dfMissingAmount []).1.found_columns =
      some ["전표일자", "거래처명", "제품명", "수량"] ∧
    "날짜" ∉ ["전표일자", "거래처명", "제품명", "수량"] := by
  decide

/-! ## Quality score (C6) -/

/-- The quality-score value exactly as the claim words it: start at 100,
subtract `(80 − mapping_rate) × 0.3` when the mapping rate is below 80,
subtract 10/5/2 per high/medium/low anomaly, clamp to [0, 100].  This
definition follows the claim's words, for comparison with
`calculateQualityScore`. -/
def claimedQualityScore (originalColumns : List String)
    (mapping : List (String × String)) (anomalies : List Anomaly) : ℚ :=
  let mappingRate : ℚ :=
    if originalColumns.isEmpty then 0
    else (mapping.length : ℚ) / (originalColumns.length : ℚ) * 100
  let penalty : ℚ := if mappingRate < 80 then (80 - mappingRate) * (3/10) else 0
  let high := (anomalies.filter (fun a => a.severity == "high")).length
  let medium := (anomalies.filter (fun a => a.severity == "medium")).length
  let low := (anomalies.filter (fun a => a.severity == "low")).length
  max 0 (min 100 (100 - penalty - 10 * high - 5 * medium - 2 * low))

/-- **C6 (amended).** The scorer computes exactly the claimed clamped
value and evaluates the grade bands (A ≥ 90 > B ≥ 70 > C ≥ 50 > D) on
that exact value, but the reported `score` field is that value rounded
to one decimal (Python `round`), which can differ from the exact
value. -/
theorem quality_score_formula (cols : List String)
    (mapping : List (String × String)) (anomalies : List Anomaly) :
    (calculateQualityScore cols mapping anomalies).score =
      pyRound1 (claimedQualityScore cols mapping anomalies) ∧
    ((calculateQualityScore cols mapping anomalies).grade = "A" ↔
      90 ≤ claimedQualityScore cols mapping anomalies) ∧
    ((calculateQualityScore cols mapping anomalies).grade = "B" ↔
      70 ≤ claimedQualityScore cols mapping anomalies ∧
        claimedQualityScore cols mapping anomalies < 90) ∧
    ((calculateQualityScore cols mapping anomalies).grade = "C" ↔
      50 ≤ claimedQualityScore cols mapping anomalies ∧
        claimedQualityScore cols mapping anomalies < 70) ∧
    ((calculateQualityScore cols mapping anomalies).grade = "D" ↔
      claimedQualityScore cols mapping anomalies < 50) := by
  have hval : claimedQualityScore cols mapping anomalies =
      max 0 (min 100
        ((if (if cols.isEmpty then (0:ℚ)
              else (mapping.length : ℚ) / (cols.length : ℚ) * 100) < 80 then
            100 - (80 - (if cols.isEmpty then (0:ℚ)
              else (mapping.length : ℚ) / (cols.length : ℚ) * 100)) * (3/10)
          else 100)
          - 10 * (anomalies.filter (fun a => a.severity == "high")).length
          - 5 * (anomalies.filter (fun a => a.severity == "medium")).length
          - 2 * (anomalies.filter (fun a => a.severity == "low")).length)) := by
    simp only [claimedQualityScore]
    split_ifs <;> ring_nf
  simp only [calculateQualityScore, ← hval]
  refine ⟨trivial, ?_, ?_, ?_, ?_⟩ <;> split_ifs with g1 g2 g3 <;>
    simp only [String.reduceEq, false_iff, true_iff, iff_false, iff_true,
      not_and, not_lt, not_le] <;>
    first
      | linarith
      | (intro h; linarith)
      | (constructor <;> linarith)

/-- Counterexample for C6 as frozen: with seven observed columns, one of
them mapped, and no anomalies, the claimed score is
`100 − (80 − 100/7)·0.3 = 562/7 ≈ 80.2857`, but the reported score is
`80.3`; the two differ, so the reported quality score does not equal the
claimed expression. -/
theorem quality_score_rounding_counterexample :
    claimedQualityScore ["c1", "c2", "c3", "c4", "c5", "c6", "c7"]
      [("c1", "전표일자")] [] = 562/7 ∧
    (calculateQualityScore ["c1", "c2", "c3", "c4", "c5", "c6", "c7"]
      [("c1", "전표일자")] []).score = 803/10 ∧
    (803 : ℚ)/10 ≠ 562/7 := by
  refine ⟨?_, ?_, by norm_num⟩
  · norm_num [claimedQualityScore]
  · norm_num [calculateQualityScore, pyRound1, roundHalfEven]

/-! ## Mapping confidence methods (C7) -/

/-- **C7 (amended).** A mapped column that is not a case-sensitive match
to any declared variant of its canonical field never gets method
`normalized`: it gets confidence 95 with method `case_insensitive` when
it equals a variant after lower-casing alone, and otherwise — in
particular when internal spaces/underscores must also be stripped —
confidence 75 with method `ai_inference`. -/
theorem case_insensitive_confidence (dataType orig std : String)
    (hnotexact : orig ∉ variationsOf dataType std) :
    (confDetail dataType (orig, std) =
      if pyLower orig ∈ (variationsOf dataType std).map pyLower then
        ⟨orig, std, 95, "case_insensitive"⟩
      else ⟨orig, std, 75, "ai_inference"⟩) ∧
    (confDetail dataType (orig, std)).method ≠ "normalized" := by
  constructor
  · simp only [confDetail, if_neg hnotexact]
  · simp only [confDetail]
    split_ifs <;> simp

/-- Witness for C7 (amended): `DATE` (a lower-case-only match for the
variant `date` of `전표일자`) is classified 95/`case_insensitive`. -/
theorem case_insensitive_confidence_witness :
    confDetail "sales" ("DATE", "전표일자") =
      ⟨"DATE", "전표일자", 95, "case_insensitive"⟩ := by
  have h := case_insensitive_confidence "sales" "DATE" "전표일자" (by decide)
  rw [h.1]
  decide

/-- Counterexample for C7 as frozen: both `DATE` and `Transaction_Date`
equal a declared variant of `전표일자` after lower-casing and stripping
spaces/underscores without being case-sensitive matches, and both are
mapped to `전표일자` by the rule-based resolver; yet neither confidence
entry has method `normalized` — `DATE` gets 95/`case_insensitive` and
`Transaction_Date` gets 75/`ai_inference` (not 95). -/
theorem normalized_match_confidence_counterexample :
    ruleBasedColumnMapping ["DATE", "Transaction_Date"] "sales" =
      [("DATE", "전표일자"), ("Transaction_Date", "전표일자")] ∧
    stripSpaceUnderscore (parserLowerStrip "DATE") ∈
      (variationsOf "sales" "전표일자").map
        (fun v => stripSpaceUnderscore (parserLowerStrip v)) ∧
    "DATE" ∉ variationsOf "sales" "전표일자" ∧
    stripSpaceUnderscore (parserLowerStrip "Transaction_Date") ∈
      (variationsOf "sales" "전표일자").map
        (fun v => stripSpaceUnderscore (parserLowerStrip v)) ∧
    "Transaction_Date" ∉ variationsOf "sales" "전표일자" ∧
    confDetail "sales" ("DATE", "전표일자") =
      ⟨"DATE", "전표일자", 95, "case_insensitive"⟩ ∧
    confDetail "sales" ("Transaction_Date", "전표일자") =
      ⟨"Transaction_Date", "전표일자", 75, "ai_inference"⟩ ∧
    "case_insensitive" ≠ "normalized" ∧ "ai_inference" ≠ "normalized" ∧
    (75 : ℕ) ≠ 95 := by
  decide

/-! ## Payroll split (C8) -/

/-- Splitting a sum over two disjoint string-equality filters. -/
theorem filter_sum_pair (rows : List Row) (c q s t : String) (hst : s ≠ t) :
    ((rows.filter (fun r => cellVal r c == some (Value.str s))).map
      (fun r => numOf (cellVal r q))).sum +
    ((rows.filter (fun r => cellVal r c == some (Value.str t))).map
      (fun r => numOf (cellVal r q))).sum =
    ((rows.filter (fun r => cellVal r c == some (Value.str s) ||
        cellVal r c == some (Value.str t))).map
      (fun r => numOf (cellVal r q))).sum := by
  induction rows with
  | nil => simp
  | cons r rest ih =>
    simp only [List.filter_cons]
    by_cases hs : cellVal r c = some (Value.str s)
    · have ht : ¬ cellVal r c = some (Value.str t) := by
        rw [hs]
        intro h
        exact hst (Value.str.inj (Option.some.inj h))
      rw [if_pos (show (cellVal r c == some (Value.str s)) = true by simp [hs]),
        if_neg (show ¬ (cellVal r c == some (Value.str t)) = true by simp [ht]),
        if_pos (show (cellVal r c == some (Value.str s) ||
          cellVal r c == some (Value.str t)) = true by simp [hs])]
      simp only [List.map_cons, List.sum_cons]
      rw [← ih]
      ring
    · by_cases ht : cellVal r c = some (Value.str t)
      · rw [if_neg (show ¬ (cellVal r c == some (Value.str s)) = true by simp [hs]),
          if_pos (show (cellVal r c == some (Value.str t)) = true by simp [ht]),
          if_pos (show (cellVal r c == some (Value.str s) ||
            cellVal r c == some (Value.str t)) = true by simp [hs, ht])]
        simp only [List.map_cons, List.sum_cons]
        rw [← ih]
        ring
      · rw [if_neg (show ¬ (cellVal r c == some (Value.str s)) = true by simp [hs]),
          if_neg (show ¬ (cellVal r c == some (Value.str t)) = true by simp [ht]),
          if_neg (show ¬ (cellVal r c == some (Value.str s) ||
            cellVal r c == some (Value.str t)) = true by simp [hs, ht])]
        exact ih

/-- **C8 (amended).** The direct/indirect split is decided by each row's
`원가구분` flag, but a row whose flag is neither `직접노무비` nor `간접노무비`
is counted in *neither* sum and no warning is recorded; consequently
direct plus indirect labor equals the total pay of the recognised-flag
rows only — not the total payroll in general. -/
theorem payroll_split_recognized_flags (df : DataFrame)
    (h1 : "지급총액" ∈ df.cols) (h2 : "원가구분" ∈ df.cols)
    (h3 : "부서" ∈ df.cols) :
    ∃ r, processPayroll df = Except.ok r ∧
      r.direct_labor = directLaborSum df ∧
      r.indirect_labor = indirectLaborSum df ∧
      r.total = colSum df "지급총액" ∧
      r.direct_labor + r.indirect_labor =
        ((df.rows.filter (fun row =>
            cellVal row "원가구분" == some (Value.str "직접노무비") ||
            cellVal row "원가구분" == some (Value.str "간접노무비"))).map
          (fun row => numOf (cellVal row "지급총액"))).sum := by
  have hok : processPayroll df = Except.ok
      ⟨colSum df "지급총액", directLaborSum df, indirectLaborSum df,
        df.rows.length⟩ := by
    simp [processPayroll, h1, h2, h3, directLaborSum, indirectLaborSum]
  refine ⟨_, hok, rfl, rfl, rfl, ?_⟩
  simp only [directLaborSum, indirectLaborSum, colSum, filterRows]
  exact filter_sum_pair df.rows "원가구분" "지급총액" "직접노무비" "간접노무비"
    (by decide)

/-- Witness for C8 (amended): the scenario payroll table, where every
flag is recognised. -/
theorem payroll_split_recognized_flags_witness :
    ∃ r, processPayroll dfPay = Except.ok r ∧
      r.direct_labor = directLaborSum dfPay ∧
      r.indirect_labor = indirectLaborSum dfPay := by
  obtain ⟨r, hok, hd, hi, _, _⟩ := payroll_split_recognized_flags dfPay
    (by decide) (by decide) (by decide)
  exact ⟨r, hok, hd, hi⟩

/-- Counterexample for C8 as frozen: a payroll row flagged `기타` is
counted in neither labor bucket, so direct + indirect (0) differs from
total payroll (100), and `process_payroll` records no warning. -/
theorem payroll_unknown_flag_counterexample :
    ∃ r, processPayroll dfUnknownFlag = Except.ok r ∧
      r.direct_labor + r.indirect_labor ≠ r.total := by
  have hok : processPayroll dfUnknownFlag = Except.ok ⟨100, 0, 0, 1⟩ := by
    simp [processPayroll, dfUnknownFlag, colSum, filterRows, cellVal, numOf]
  exact ⟨_, hok, by norm_num⟩

end ERP
